import Mathlib

/-!
# sora_exporter: the collector

A shallow embedding of `collector/collector.go`: the option-built configuration
(`New`, `defaults`, `With*`), the descriptor table (`newDesc`), `Describe`, and one
scrape cycle (`Collect`) including the parts of the Go standard library the cycle
goes through (`http.NewRequestWithContext`, `Header.Set`, `json.Decoder.Decode` into
`statsReport`, the `float64` conversion of an `int64`).

Channels are modelled by the list of values sent on them, in order. What the outside
world decides (whether `url.Parse` accepts a string, what `http.DefaultClient` answers)
is a parameter, `Platform`.
-/

set_option autoImplicit false

namespace collector

/-! ## prometheus: descriptors and constant metrics -/

/-- The function `prometheus.BuildFQName`: the non-empty parts joined by an underscore,
and the empty string when `name` is empty. -/
def BuildFQName (ns subsystem name : String) : String :=
  if name = "" then ""
  else if ns ≠ "" ∧ subsystem ≠ "" then String.intercalate "_" [ns, subsystem, name]
  else if ns ≠ "" then String.intercalate "_" [ns, name]
  else if subsystem ≠ "" then String.intercalate "_" [subsystem, name]
  else name

/-- The type `prometheus.Desc`, as built by `prometheus.NewDesc`. -/
structure Desc where
  fqName : String
  help : String
  variableLabels : List String
  constLabels : List (String × String)
  deriving DecidableEq, Repr

/-- The function `prometheus.NewDesc`; a nil slice or map is the empty list. -/
def NewDesc (fqName help : String) (variableLabels : List String)
    (constLabels : List (String × String)) : Desc :=
  { fqName := fqName, help := help, variableLabels := variableLabels,
    constLabels := constLabels }

/-- The type `prometheus.ValueType`, restricted to the two kinds the collector uses. -/
inductive ValueType
  | CounterValue
  | GaugeValue
  deriving DecidableEq, Repr

/-- A constant metric (`prometheus.MustNewConstMetric` with no label values): the
descriptor, the kind, and the number its `float64` value denotes. -/
structure Metric where
  desc : Desc
  valType : ValueType
  value : ℚ
  deriving DecidableEq

/-- The function `prometheus.MustNewConstMetric`, called without label values. -/
def MustNewConstMetric (d : Desc) (t : ValueType) (v : ℚ) : Metric :=
  { desc := d, valType := t, value := v }

/-- The function `newDesc` (collector.go:89). -/
def newDesc (name help : String) : Desc :=
  NewDesc (BuildFQName "sora" "exporter" name) help [] []

/-- The function `newGauge` (collector.go:141). -/
def newGauge (d : Desc) (v : ℚ) : Metric :=
  MustNewConstMetric d ValueType.GaugeValue v

/-- The function `newCounter` (collector.go:145). -/
def newCounter (d : Desc) (v : ℚ) : Metric :=
  MustNewConstMetric d ValueType.CounterValue v

/-! ## Go numerics -/

/-- Number of binary digits of `m`, for `m < 2 ^ fuel`. -/
def bitLen : Nat → Nat → Nat
  | 0, _ => 0
  | fuel + 1, m => if m = 0 then 0 else bitLen fuel (m / 2) + 1

/-- The integer denoted by `float64(n)` for an `int64` `n`: IEEE-754 binary64 keeps 53
significant bits and rounds to nearest, ties to even. Magnitudes below `2 ^ 53` are
kept; a larger one is cut to its 53 leading bits `q` (dropping `e` low bits `r`) and
rounded. -/
def roundToFloat64 (n : Int) : Int :=
  let m := n.natAbs
  if m < 2 ^ 53 then n
  else
    let e := bitLen 64 m - 53
    let q := m / 2 ^ e
    let r := m % 2 ^ e
    let half := 2 ^ (e - 1)
    let q1 := if half < r ∨ (r = half ∧ q % 2 = 1) then q + 1 else q
    Int.sign n * ((q1 * 2 ^ e : Nat) : Int)

/-- The Go conversion `float64(n)` of an `int64`, as the rational number the
resulting float denotes. -/
def float64 (n : Int) : ℚ := ((roundToFloat64 n : Int) : ℚ)

/-- The bounds of `int64`. -/
def inInt64 (n : Int) : Prop := -(2 : Int) ^ 63 ≤ n ∧ n < (2 : Int) ^ 63

instance (n : Int) : Decidable (inInt64 n) := by
  unfold inInt64; infer_instance

/-! ## net/http -/

/-- The function `textproto.CanonicalMIMEHeaderKey` on one letter: upper case at the
start and after a hyphen, lower case elsewhere. -/
def canonicalChars : Bool → List Char → List Char
  | _, [] => []
  | upper, c :: cs =>
    (if upper then c.toUpper else c.toLower) :: canonicalChars (c = '-') cs

/-- The bytes `textproto` accepts in a header field name (RFC 7230 token). -/
def validHeaderFieldByte (c : Char) : Bool :=
  c.isAlphanum || c ∈ ['!', '#', '$', '%', '&', '*', '+', '-', '.', '^', '_', '|', '~',
    Char.ofNat 39, Char.ofNat 96]

/-- The function `textproto.CanonicalMIMEHeaderKey`: a key holding a byte that is not a
token byte is returned unchanged. -/
def CanonicalMIMEHeaderKey (s : String) : String :=
  if s.toList.all validHeaderFieldByte then String.mk (canonicalChars true s.toList) else s

/-- The type `http.Header`: canonical key to values. -/
abbrev Header := List (String × List String)

/-- The method `Header.Set`: the values under the canonical key are replaced by the
single value. -/
def Header.Set (h : Header) (key value : String) : Header :=
  (CanonicalMIMEHeaderKey key, [value]) ::
    h.filter (fun kv => kv.1 ≠ CanonicalMIMEHeaderKey key)

/-- The method `Header.Get`: the first value under the canonical key, or the empty
string. -/
def Header.Get (h : Header) (key : String) : String :=
  match h.find? (fun kv => kv.1 = CanonicalMIMEHeaderKey key) with
  | some (_, v :: _) => v
  | _ => ""

/-- The type `time.Duration`: nanoseconds. -/
abbrev Duration := Int

/-- The constant `time.Second`. -/
def Second : Duration := 1000000000

/-- An outbound `http.Request`, as far as the collector fills it: `url` is the string
whose parse is the target, `body` is `none` for a nil body, `ctxTimeout` is the timeout
of the context the request carries. -/
structure Request where
  method : String
  url : String
  header : Header
  body : Option String
  ctxTimeout : Duration
  deriving DecidableEq, Repr

/-- A syntactically valid JSON value. `int n` is a number literal without fraction and
exponent part (of any size), `nonint` a number literal with such a part; the members
of an object are in the order of the text, duplicates kept. -/
inductive JSON
  | null
  | bool (b : Bool)
  | int (n : Int)
  | nonint (literal : String)
  | str (s : String)
  | arr (elems : List JSON)
  | obj (members : List (String × JSON))

/-- A response body: either a byte stream from which no JSON value can be read (empty,
syntactically invalid, or failing mid-read, with the error of the read), or a stream
that starts with one syntactically valid JSON value. -/
inductive Body
  | invalid (err : String)
  | json (v : JSON)

/-- An `http.Response`: the status code is carried but never read by the collector. -/
structure Response where
  statusCode : Nat
  body : Body

/-- The interface `HTTPClient` (collector.go:40): one method `Do`. -/
abbrev HTTPClient := Request → Except String Response

/-- What the environment decides: the error of `url.Parse` on a string (`none` when it
parses) and the behaviour of `http.DefaultClient`. -/
structure Platform where
  urlParseError : String → Option String
  DefaultClient : HTTPClient

/-- The function `http.validMethod`: a non-empty token. -/
def validMethod (method : String) : Bool :=
  method ≠ "" && method.toList.all validHeaderFieldByte

/-- The errors of `http.NewRequestWithContext`, by origin: the method is not a token, or
`url.Parse` rejects the URL (with its error). -/
inductive RequestError
  | invalidMethod (method : String)
  | url (err : String)

/-- The function `http.NewRequestWithContext` with a non-nil context of the given
timeout: an empty method stands for GET; it fails on an invalid method or when
`url.Parse` rejects the URL. -/
def NewRequestWithContext (P : Platform) (ctxTimeout : Duration) (method url : String)
    (body : Option String) : Except RequestError Request :=
  let method := if method = "" then "GET" else method
  if validMethod method then
    match P.urlParseError url with
    | some err => Except.error (RequestError.url err)
    | none => Except.ok
        { method := method, url := url, header := [], body := body,
          ctxTimeout := ctxTimeout }
  else Except.error (RequestError.invalidMethod method)

/-! ## The report and its decoding -/

/-- The structure `statsReport` (collector.go:163). -/
structure statsReport where
  TotalConnectionCreated : Int
  TotalConnectionUpdated : Int
  TotalConnectionDestroyed : Int
  TotalSuccessfulConnections : Int
  TotalOngoingConnections : Int
  TotalFailedConnections : Int
  TotalDurationSec : Int
  TotalTurnUdpConnections : Int
  TotalTurnTcpConnections : Int
  AverageDurationSec : Int
  AverageSetupTimeMsec : Int
  deriving DecidableEq, Repr

/-- The zero value of `statsReport` (`var report statsReport`). -/
def statsReport.zero : statsReport :=
  ⟨0, 0, 0, 0, 0, 0, 0, 0, 0, 0, 0⟩

/-- The fields of `statsReport`, in declaration order. -/
inductive Field
  | TotalConnectionCreated
  | TotalConnectionUpdated
  | TotalConnectionDestroyed
  | TotalSuccessfulConnections
  | TotalOngoingConnections
  | TotalFailedConnections
  | TotalDurationSec
  | TotalTurnUdpConnections
  | TotalTurnTcpConnections
  | AverageDurationSec
  | AverageSetupTimeMsec
  deriving DecidableEq, Repr

/-- The fields in declaration order, the order in which `encoding/json` lists them. -/
def Field.all : List Field :=
  [.TotalConnectionCreated, .TotalConnectionUpdated, .TotalConnectionDestroyed,
   .TotalSuccessfulConnections, .TotalOngoingConnections, .TotalFailedConnections,
   .TotalDurationSec, .TotalTurnUdpConnections, .TotalTurnTcpConnections,
   .AverageDurationSec, .AverageSetupTimeMsec]

/-- The wire name of a field: its `json` struct tag. -/
def Field.jsonName : Field → String
  | .TotalConnectionCreated => "total_connection_created"
  | .TotalConnectionUpdated => "total_connection_updated"
  | .TotalConnectionDestroyed => "total_connection_destroyed"
  | .TotalSuccessfulConnections => "total_successful_connections"
  | .TotalOngoingConnections => "total_ongoing_connections"
  | .TotalFailedConnections => "total_failed_connections"
  | .TotalDurationSec => "total_duration_sec"
  | .TotalTurnUdpConnections => "total_turn_udp_connections"
  | .TotalTurnTcpConnections => "total_turn_tcp_connections"
  | .AverageDurationSec => "average_duration_sec"
  | .AverageSetupTimeMsec => "average_setup_time_msec"

/-- Reading a field of the report. -/
def statsReport.get (r : statsReport) : Field → Int
  | .TotalConnectionCreated => r.TotalConnectionCreated
  | .TotalConnectionUpdated => r.TotalConnectionUpdated
  | .TotalConnectionDestroyed => r.TotalConnectionDestroyed
  | .TotalSuccessfulConnections => r.TotalSuccessfulConnections
  | .TotalOngoingConnections => r.TotalOngoingConnections
  | .TotalFailedConnections => r.TotalFailedConnections
  | .TotalDurationSec => r.TotalDurationSec
  | .TotalTurnUdpConnections => r.TotalTurnUdpConnections
  | .TotalTurnTcpConnections => r.TotalTurnTcpConnections
  | .AverageDurationSec => r.AverageDurationSec
  | .AverageSetupTimeMsec => r.AverageSetupTimeMsec

/-- Storing into a field of the report. -/
def statsReport.set (r : statsReport) (f : Field) (v : Int) : statsReport :=
  match f with
  | .TotalConnectionCreated => { r with TotalConnectionCreated := v }
  | .TotalConnectionUpdated => { r with TotalConnectionUpdated := v }
  | .TotalConnectionDestroyed => { r with TotalConnectionDestroyed := v }
  | .TotalSuccessfulConnections => { r with TotalSuccessfulConnections := v }
  | .TotalOngoingConnections => { r with TotalOngoingConnections := v }
  | .TotalFailedConnections => { r with TotalFailedConnections := v }
  | .TotalDurationSec => { r with TotalDurationSec := v }
  | .TotalTurnUdpConnections => { r with TotalTurnUdpConnections := v }
  | .TotalTurnTcpConnections => { r with TotalTurnTcpConnections := v }
  | .AverageDurationSec => { r with AverageDurationSec := v }
  | .AverageSetupTimeMsec => { r with AverageSetupTimeMsec := v }

/-- Unicode simple case folding against an ASCII letter or sign `c` of a field name:
the runes `r` with `unicode.SimpleFold` orbit equal to that of `c`. For a letter these
are its two cases, and in addition U+212A (Kelvin sign) for k and U+017F (long s) for s;
any other ASCII character folds only to itself. -/
def foldsTo (c r : Char) : Bool :=
  r = c || (c.isAlpha && (r = c.toUpper || r = c.toLower))
    || (c.toLower = 'k' && r = Char.ofNat 0x212A)
    || (c.toLower = 's' && r = Char.ofNat 0x17F)

/-- Rune-wise comparison under simple folding of an ASCII name with a key. -/
def equalFoldChars : List Char → List Char → Bool
  | [], [] => true
  | c :: cs, r :: rs => foldsTo c r && equalFoldChars cs rs
  | _, _ => false

/-- The function `bytes.EqualFold` with an ASCII first argument (every wire name is
ASCII): equality under Unicode simple case folding. -/
def EqualFold (name key : String) : Bool :=
  equalFoldChars name.toList key.toList

/-- The field an object key selects in `encoding/json`: the field whose name equals
the key, and failing that the first field whose name equals it under case folding. -/
def findField (key : String) : Option Field :=
  match Field.all.find? (fun f => f.jsonName = key) with
  | some f => some f
  | none => Field.all.find? (fun f => EqualFold f.jsonName key)

/-- The errors of decoding, by origin: no JSON value could be read from the body (the
error of the scanner or of the reader), or an `UnmarshalTypeError` for a JSON value
that does not fit its destination, a field of the report or (`none`) the report
itself. -/
inductive DecodeError
  | read (err : String)
  | unmarshalType (value : JSON) (field : Option Field)

/-- The state of one `Unmarshal`: the struct being filled and the first saved error
(`decodeState.savedError`). -/
structure decodeState where
  report : statsReport
  savedError : Option DecodeError

/-- The method `decodeState.saveError`: only the first error is kept. -/
def decodeState.saveError (d : decodeState) (err : DecodeError) : decodeState :=
  match d.savedError with
  | none => { d with savedError := some err }
  | some _ => d

/-- Storing one JSON value into an `int64` field: `null` is skipped, a number literal
that `strconv.ParseInt` accepts is stored, anything else saves an
`UnmarshalTypeError` and leaves the field as it is. -/
def storeInt64 (d : decodeState) (f : Field) : JSON → decodeState
  | .null => d
  | .int n =>
    if inInt64 n then { d with report := d.report.set f n }
    else d.saveError (DecodeError.unmarshalType (JSON.int n) (some f))
  | .nonint lit => d.saveError (DecodeError.unmarshalType (JSON.nonint lit) (some f))
  | .bool b => d.saveError (DecodeError.unmarshalType (JSON.bool b) (some f))
  | .str t => d.saveError (DecodeError.unmarshalType (JSON.str t) (some f))
  | .arr elems => d.saveError (DecodeError.unmarshalType (JSON.arr elems) (some f))
  | .obj members => d.saveError (DecodeError.unmarshalType (JSON.obj members) (some f))

/-- One member of an object: a key that selects no field is skipped with its value. -/
def decodeMember (d : decodeState) (kv : String × JSON) : decodeState :=
  match findField kv.1 with
  | none => d
  | some f => storeInt64 d f kv.2

/-- The method `decodeState.object` for the report: the members in text order. -/
def decodeObject (d : decodeState) (members : List (String × JSON)) : decodeState :=
  members.foldl decodeMember d

/-- The function `json.Unmarshal` of one JSON value into a zero `statsReport`: `null`
leaves it untouched, an object is decoded member by member, any other value is an
`UnmarshalTypeError`; the first saved error is the result. -/
def unmarshal : JSON → Except DecodeError statsReport
  | .null => Except.ok statsReport.zero
  | .obj members =>
    let d := decodeObject { report := statsReport.zero, savedError := none } members
    match d.savedError with
    | some err => Except.error err
    | none => Except.ok d.report
  | .bool b => Except.error (DecodeError.unmarshalType (JSON.bool b) none)
  | .int n => Except.error (DecodeError.unmarshalType (JSON.int n) none)
  | .nonint lit => Except.error (DecodeError.unmarshalType (JSON.nonint lit) none)
  | .str t => Except.error (DecodeError.unmarshalType (JSON.str t) none)
  | .arr elems => Except.error (DecodeError.unmarshalType (JSON.arr elems) none)

/-- The call `json.NewDecoder(resp.Body).Decode(&report)`: the first JSON value of the
stream is read and unmarshalled; a stream without one is an error. -/
def Decode : Body → Except DecodeError statsReport
  | .invalid err => Except.error (DecodeError.read err)
  | .json v => unmarshal v

/-! ## Configuration -/

/-- The interface `log.Logger`, by identity: the JSON logger on standard error that
`defaults` installs, or one supplied by the caller. -/
inductive Logger
  | jsonStderr
  | custom (id : Nat)
  deriving DecidableEq, Repr

/-- The structure `config` (collector.go:31). The two interface fields are `none` when
nil, as in the zero value. -/
structure config where
  httpClient : Option HTTPClient
  logger : Option Logger
  timeout : Duration
  soraURL : String

/-- The type `Option` (collector.go:38), `func(cfg *config)`: the update of the
configuration it performs. -/
abbrev CollectorOption := config → config

/-- The option constructor `WithHTTPClient` (collector.go:44); the argument is an
interface value, `none` when nil, and is stored as given. -/
def WithHTTPClient (cli : Option HTTPClient) : CollectorOption :=
  fun cfg => { cfg with httpClient := cli }

/-- The option constructor `WithLogger` (collector.go:50); the argument is an interface
value, `none` when nil, and is stored as given. -/
def WithLogger (logger : Option Logger) : CollectorOption :=
  fun cfg => { cfg with logger := logger }

/-- The option constructor `WithTimeout` (collector.go:56). -/
def WithTimeout (timeout : Duration) : CollectorOption :=
  fun cfg => { cfg with timeout := timeout }

/-- The option constructor `WithSoraURL` (collector.go:62). -/
def WithSoraURL (url : String) : CollectorOption :=
  fun cfg => { cfg with soraURL := url }

/-- The function `defaults` (collector.go:93). -/
def defaults (P : Platform) : List CollectorOption :=
  [WithHTTPClient (some P.DefaultClient),
   WithLogger (some Logger.jsonStderr),
   WithTimeout (1 * Second),
   WithSoraURL "http://127.0.0.1:3000/"]

/-- The zero value `new(config)`. -/
def config.new : config :=
  { httpClient := none, logger := none, timeout := 0, soraURL := "" }

/-- The structure `Collector` (collector.go:15): the embedded configuration and the
eleven descriptors. -/
structure Collector extends config where
  totalConnectionCreated : Desc
  totalConnectionUpdated : Desc
  totalConnectionDestroyed : Desc
  totalSuccessfulConnections : Desc
  totalOngoingConnections : Desc
  totalFailedConnections : Desc
  totalDurationSec : Desc
  totalTurnUdpConnections : Desc
  totalTurnTcpConnections : Desc
  averageDurationSec : Desc
  averageSetupTimeSec : Desc

/-- The function `New` (collector.go:68): the options after the defaults, applied in order to the
zero configuration. -/
def New (P : Platform) (opts : List CollectorOption) : Collector :=
  let cfg := (defaults P ++ opts).foldl (fun cfg opt => opt cfg) config.new
  { toconfig := cfg
    totalConnectionCreated :=
      newDesc "connections_created_total" "The total number of connections created."
    totalConnectionUpdated :=
      newDesc "connections_updated_total" "The total number of connections updated."
    totalConnectionDestroyed :=
      newDesc "connections_destroyed_total" "The total number of connections destryed."
    totalSuccessfulConnections :=
      newDesc "successfull_connections_total" "The total number of successfull connections."
    totalOngoingConnections :=
      newDesc "ongoing_connections_total" "The total number of ongoing connections."
    totalFailedConnections :=
      newDesc "failed_connections_total" "The total number of failed connections."
    totalDurationSec :=
      newDesc "duration_seconds_total" "The total duration of connections."
    totalTurnUdpConnections :=
      newDesc "turn_udp_connections_total" "The total number of connections with TURN-UDP."
    totalTurnTcpConnections :=
      newDesc "turn_tcp_connections_total" "The total number of connections with TURN-TCP."
    averageDurationSec :=
      newDesc "average_duration_seconds" "The average connection duration in seconds."
    averageSetupTimeSec :=
      newDesc "average_setup_time_seconds" "The average setup time in seconds." }

/-! ## Describe and Collect -/

/-- The function `Describe` (collector.go:149): the descriptors sent on the channel, in order. -/
def Describe (c : Collector) : List Desc :=
  [c.totalConnectionCreated,
   c.totalConnectionUpdated,
   c.totalConnectionUpdated,
   c.totalSuccessfulConnections,
   c.totalOngoingConnections,
   c.totalFailedConnections,
   c.totalDurationSec,
   c.totalTurnUdpConnections,
   c.totalTurnTcpConnections,
   c.averageDurationSec,
   c.averageSetupTimeSec]

/-- The error values `Collect` logs: the error of request construction, the error the
client's `Do` returned, or the error of decoding. -/
inductive CycleError
  | request (err : RequestError)
  | transport (err : String)
  | decode (err : DecodeError)

/-- One error-level record, `Log("msg", msg, "err", err)`. -/
structure LogRecord where
  msg : String
  err : CycleError

/-- What one call of `Collect` does that can be observed: the metrics sent on the
channel, the requests handed to the client's `Do`, the error-level log records, each
in order, and whether the call ended in a panic (a nil client or a nil logger being
called). -/
structure Cycle where
  samples : List Metric
  requests : List Request
  logs : List LogRecord
  panicked : Bool

/-- The statement `level.Error(c.logger).Log("msg", msg, "err", err); return` after the
given requests: no sample is sent. -/
def logAndReturn (c : Collector) (requests : List Request) (msg : String)
    (err : CycleError) : Cycle :=
  match c.logger with
  | some _ =>
    { samples := [], requests := requests, logs := [{ msg := msg, err := err }],
      panicked := false }
  | none => { samples := [], requests := requests, logs := [], panicked := true }

/-- The eleven sends that end `Collect` (collector.go:128-138). The division is the
one of `int64`, truncating toward zero, and is done before the conversion. -/
def emit (c : Collector) (report : statsReport) : List Metric :=
  [newCounter c.totalConnectionCreated (float64 report.TotalConnectionCreated),
   newCounter c.totalConnectionUpdated (float64 report.TotalConnectionUpdated),
   newCounter c.totalConnectionDestroyed (float64 report.TotalConnectionDestroyed),
   newCounter c.totalSuccessfulConnections (float64 report.TotalSuccessfulConnections),
   newCounter c.totalOngoingConnections (float64 report.TotalOngoingConnections),
   newCounter c.totalFailedConnections (float64 report.TotalFailedConnections),
   newCounter c.totalDurationSec (float64 report.TotalDurationSec),
   newCounter c.totalTurnUdpConnections (float64 report.TotalTurnUdpConnections),
   newCounter c.totalTurnTcpConnections (float64 report.TotalTurnTcpConnections),
   newGauge c.averageDurationSec (float64 report.AverageDurationSec),
   newGauge c.averageSetupTimeSec (float64 (Int.tdiv report.AverageSetupTimeMsec 1000))]

/-- The statement `req.Header.Set("x-sora-target", "Sora_20171010.GetStatsReport")`
(collector.go:113). -/
def setTarget (req : Request) : Request :=
  { req with header := Header.Set req.header "x-sora-target" "Sora_20171010.GetStatsReport" }

/-- The function `Collect` (collector.go:104). -/
def Collect (P : Platform) (c : Collector) : Cycle :=
  match NewRequestWithContext P c.timeout "POST" c.soraURL none with
  | Except.error err =>
    logAndReturn c [] "failed to create request to sora" (CycleError.request err)
  | Except.ok req0 =>
    let req := setTarget req0
    match c.httpClient with
    | none => { samples := [], requests := [], logs := [], panicked := true }
    | some cli =>
      match cli req with
      | Except.error err =>
        logAndReturn c [req] "failed to request to sora" (CycleError.transport err)
      | Except.ok resp =>
        match Decode resp.body with
        | Except.error err =>
          logAndReturn c [req] "failed to decode response body from sora"
            (CycleError.decode err)
        | Except.ok report =>
          { samples := emit c report, requests := [req], logs := [], panicked := false }

/-! ## Fixtures -/

/-- A platform on which every URL parses and the default client answers 200 with the
given body. -/
def fixedPlatform (body : Body) : Platform :=
  { urlParseError := fun _ => none
    DefaultClient := fun _ => Except.ok { statusCode := 200, body := body } }

def exampleReportBody : Body :=
  Body.json (JSON.obj
    [("total_connection_created", JSON.int 5),
     ("average_setup_time_msec", JSON.int 2500),
     ("average_duration_sec", JSON.int 7)])


/-- A platform on which `url.Parse` rejects every URL. -/
def rejectingPlatform : Platform :=
  { urlParseError := fun _ => some "parse: invalid URL"
    DefaultClient := fun _ => Except.ok { statusCode := 200, body := Body.json JSON.null } }

/-- A platform on which every URL parses and the default client fails. -/
def unreachablePlatform : Platform :=
  { urlParseError := fun _ => none
    DefaultClient := fun _ => Except.error "dial tcp 127.0.0.1:3000: connection refused" }

/-- The request `Collect` builds for the given URL and timeout. -/
def statsRequest (url : String) (timeout : Duration) : Request :=
  { method := "POST", url := url,
    header := [("X-Sora-Target", ["Sora_20171010.GetStatsReport"])],
    body := none, ctxTimeout := timeout }

/-- A response body with a negative counter and one of magnitude 2^53. -/
def negativeReportBody : Body :=
  Body.json (JSON.obj
    [("total_connection_created", JSON.int (-3)),
     ("total_ongoing_connections", JSON.int 9007199254740992)])

/-! ## Options, as the package's callers can write them -/

/-- A call of one of the four option constructors the package exports. -/
inductive OptionCall
  | httpClient (cli : Option HTTPClient)
  | logger (l : Option Logger)
  | timeout (t : Duration)
  | soraURL (url : String)

/-- The option a constructor call returns. -/
def OptionCall.toOption : OptionCall → CollectorOption
  | .httpClient cli => WithHTTPClient cli
  | .logger l => WithLogger l
  | .timeout t => WithTimeout t
  | .soraURL url => WithSoraURL url

/-- The client (nil or not) given by the last `WithHTTPClient` of the list, if there is
one. -/
def lastHTTPClient (calls : List OptionCall) : Option (Option HTTPClient) :=
  calls.reverse.findSome? (fun o => match o with | .httpClient cli => some cli | _ => none)

/-- The logger (nil or not) given by the last `WithLogger` of the list, if there is
one. -/
def lastLogger (calls : List OptionCall) : Option (Option Logger) :=
  calls.reverse.findSome? (fun o => match o with | .logger l => some l | _ => none)

/-- The timeout given by the last `WithTimeout` of the list, if there is one. -/
def lastTimeout (calls : List OptionCall) : Option Duration :=
  calls.reverse.findSome? (fun o => match o with | .timeout t => some t | _ => none)

/-- The URL given by the last `WithSoraURL` of the list, if there is one. -/
def lastSoraURL (calls : List OptionCall) : Option String :=
  calls.reverse.findSome? (fun o => match o with | .soraURL url => some url | _ => none)

/-- The built-in defaults as one configuration: the default HTTP client, the JSON logger
on standard error, one second, the loopback URL. -/
def defaultConfig (P : Platform) : config :=
  { httpClient := some P.DefaultClient, logger := some Logger.jsonStderr,
    timeout := 1000000000, soraURL := "http://127.0.0.1:3000/" }

/-! ## Shapes of response bodies -/

/-- What `storeInt64` stores without an error: `null` and an integer literal within
`int64`. -/
def storable : JSON → Bool
  | .null => true
  | .int n => decide (inInt64 n)
  | _ => false

/-- The JSON values that are report-shaped: `null`, and an object in which every member
whose key selects a field (exactly or under case folding) holds a storable value. -/
def reportShaped : JSON → Bool
  | .null => true
  | .obj members => members.all (fun kv => (findField kv.1).isNone || storable kv.2)
  | _ => false

/-- The integer a member stores into field `f`, if it stores one. -/
def storedInto (f : Field) (kv : String × JSON) : Option Int :=
  if findField kv.1 = some f then
    match kv.2 with
    | .int n => if inInt64 n then some n else none
    | _ => none
  else none

/-- The integer stored into field `f` by the last member of the object that stores one
into it. -/
def lastStored (f : Field) (members : List (String × JSON)) : Option Int :=
  members.reverse.findSome? (storedInto f)

/-- A body that is a JSON array. -/
def arrayBody : Body := Body.json (JSON.arr [])

/-- A body whose only key is a wire name in upper case. -/
def upperCaseBody : Body :=
  Body.json (JSON.obj [("TOTAL_CONNECTION_CREATED", JSON.int 5)])

/-- A body with a wire name and, after it, the same name in another case. -/
def mixedCaseBody : Body :=
  Body.json (JSON.obj
    [("total_connection_created", JSON.int 1), ("Total_Connection_Created", JSON.int 2)])

/-- The body `mixedCaseBody` without its second member. -/
def singleKeyBody : Body :=
  Body.json (JSON.obj [("total_connection_created", JSON.int 1)])

/-- A body whose only key is a wire name in another case, holding a string. -/
def mixedCaseStringBody : Body :=
  Body.json (JSON.obj [("Total_Connection_Created", JSON.str "many")])

/-- A body with one field missing, one unknown key and one key in upper case. -/
def incompleteBody : Body :=
  Body.json (JSON.obj
    [("total_connection_created", JSON.int 5),
     ("total_connection_updated", JSON.int 6),
     ("node_name", JSON.str "sora@127.0.0.1"),
     ("AVERAGE_DURATION_SEC", JSON.int 7)])

/-! ## Helper lemmas -/

theorem roundToFloat64_of_le (n : Int) (h : n.natAbs ≤ 2 ^ 53) : roundToFloat64 n = n := by
  by_cases hlt : n.natAbs < 2 ^ 53
  · simp only [roundToFloat64]
    rw [if_pos hlt]
  · have hm : n.natAbs = 2 ^ 53 := by omega
    rcases Int.natAbs_eq n with hn | hn
    · rw [hm] at hn
      subst hn
      decide
    · rw [hm] at hn
      subst hn
      decide

theorem float64_of_le (n : Int) (h : n.natAbs ≤ 2 ^ 53) : float64 n = (n : ℚ) := by
  unfold float64
  rw [roundToFloat64_of_le n h]

theorem Collect_of_success (P : Platform) (c : Collector) (req0 : Request)
    (cli : HTTPClient) (resp : Response) (report : statsReport)
    (hreq : NewRequestWithContext P c.timeout "POST" c.soraURL none = Except.ok req0)
    (hcli : c.httpClient = some cli)
    (hdo : cli (setTarget req0) = Except.ok resp)
    (hdec : Decode resp.body = Except.ok report) :
    Collect P c = { samples := emit c report, requests := [setTarget req0],
                    logs := [], panicked := false } := by
  simp [Collect, hreq, hcli, hdo, hdec]

theorem logAndReturn_samples (c : Collector) (rs : List Request) (msg : String)
    (err : CycleError) :
    (logAndReturn c rs msg err).samples = [] := by
  unfold logAndReturn
  cases c.logger <;> rfl

theorem Collect_samples_cases (P : Platform) (c : Collector) :
    (Collect P c).samples = [] ∨ ∃ report, (Collect P c).samples = emit c report := by
  unfold Collect
  split
  · left; exact logAndReturn_samples _ _ _ _
  · dsimp only
    split
    · left; rfl
    · split
      · left; exact logAndReturn_samples _ _ _ _
      · split
        · left; exact logAndReturn_samples _ _ _ _
        · right; exact ⟨_, rfl⟩


theorem New_Describe (P : Platform) (opts : List CollectorOption) :
    Describe (New P opts) =
      [newDesc "connections_created_total" "The total number of connections created.",
       newDesc "connections_updated_total" "The total number of connections updated.",
       newDesc "connections_updated_total" "The total number of connections updated.",
       newDesc "successfull_connections_total" "The total number of successfull connections.",
       newDesc "ongoing_connections_total" "The total number of ongoing connections.",
       newDesc "failed_connections_total" "The total number of failed connections.",
       newDesc "duration_seconds_total" "The total duration of connections.",
       newDesc "turn_udp_connections_total" "The total number of connections with TURN-UDP.",
       newDesc "turn_tcp_connections_total" "The total number of connections with TURN-TCP.",
       newDesc "average_duration_seconds" "The average connection duration in seconds.",
       newDesc "average_setup_time_seconds" "The average setup time in seconds."] := rfl

theorem New_emit_descs (P : Platform) (opts : List CollectorOption) (report : statsReport) :
    (emit (New P opts) report).map Metric.desc =
      [newDesc "connections_created_total" "The total number of connections created.",
       newDesc "connections_updated_total" "The total number of connections updated.",
       newDesc "connections_destroyed_total" "The total number of connections destryed.",
       newDesc "successfull_connections_total" "The total number of successfull connections.",
       newDesc "ongoing_connections_total" "The total number of ongoing connections.",
       newDesc "failed_connections_total" "The total number of failed connections.",
       newDesc "duration_seconds_total" "The total duration of connections.",
       newDesc "turn_udp_connections_total" "The total number of connections with TURN-UDP.",
       newDesc "turn_tcp_connections_total" "The total number of connections with TURN-TCP.",
       newDesc "average_duration_seconds" "The average connection duration in seconds.",
       newDesc "average_setup_time_seconds" "The average setup time in seconds."] := rfl

/-- C1 (fails on the code): for every Collector built by New, Describe sends eleven
descriptors but connections_updated_total twice and connections_destroyed_total never,
although Collect attaches the latter to its third sample whenever it sends samples. -/
theorem Describe_omits_connections_destroyed (P : Platform) (opts : List CollectorOption) :
    (Describe (New P opts)).length = 11 ∧
    ¬ (Describe (New P opts)).Nodup ∧
    (New P opts).totalConnectionDestroyed ∉ Describe (New P opts) ∧
    (New P opts).totalConnectionDestroyed.fqName = "sora_exporter_connections_destroyed_total" ∧
    (∀ report : statsReport,
      (New P opts).totalConnectionDestroyed ∈ (emit (New P opts) report).map Metric.desc) ∧
    ((Collect P (New P opts)).samples ≠ [] →
      (New P opts).totalConnectionDestroyed ∈ (Collect P (New P opts)).samples.map Metric.desc) := by
  have hd : (New P opts).totalConnectionDestroyed =
      newDesc "connections_destroyed_total" "The total number of connections destryed." := rfl
  have hmem : ∀ report : statsReport,
      (New P opts).totalConnectionDestroyed ∈ (emit (New P opts) report).map Metric.desc := by
    intro report
    rw [New_emit_descs, hd]
    decide
  refine ⟨rfl, ?_, ?_, ?_, hmem, ?_⟩
  · rw [New_Describe]; decide
  · rw [New_Describe, hd]; decide
  · rw [hd]; decide
  · intro hne
    rcases Collect_samples_cases P (New P opts) with h | ⟨report, h⟩
    · exact absurd h hne
    · rw [h]; exact hmem report

theorem float64_tdiv_2500 : float64 (Int.tdiv 2500 1000) = 2 := by
  have h : Int.tdiv 2500 1000 = 2 := by decide
  rw [h, float64_of_le _ (by decide)]
  norm_num

theorem exampleReport_decodes :
    Decode exampleReportBody =
      Except.ok { statsReport.zero with
        TotalConnectionCreated := 5, AverageSetupTimeMsec := 2500, AverageDurationSec := 7 } := by
  rfl

/-- C2 (fails on the code): against an upstream reporting average_setup_time_msec = 2500
the average_setup_time_seconds gauge is sent with the value 2, not 2500 / 1000. -/
theorem average_setup_time_2500_emits_2 :
    ((Collect (fixedPlatform exampleReportBody)
        (New (fixedPlatform exampleReportBody) [])).samples.map
      (fun m => (m.desc.fqName, m.valType, m.value))).getLast?
      = some ("sora_exporter_average_setup_time_seconds", ValueType.GaugeValue, (2 : ℚ)) ∧
    (2 : ℚ) ≠ (2500 : ℚ) / 1000 := by
  constructor
  · rw [Collect_of_success (fixedPlatform exampleReportBody) _ _ _ _ _ rfl rfl rfl
      exampleReport_decodes]
    simp [emit, newGauge, newCounter, MustNewConstMetric, statsReport.zero, float64_tdiv_2500]
    decide
  · norm_num

theorem logAndReturn_requests (c : Collector) (rs : List Request) (msg : String)
    (err : CycleError) :
    (logAndReturn c rs msg err).requests = rs := by
  unfold logAndReturn
  cases c.logger <;> rfl

theorem NewRequestWithContext_POST (P : Platform) (t : Duration) (url : String) :
    NewRequestWithContext P t "POST" url none =
      match P.urlParseError url with
      | some err => Except.error (RequestError.url err)
      | none => Except.ok { method := "POST", url := url, header := [], body := none,
                            ctxTimeout := t } := by
  have hv : validMethod "POST" = true := by decide
  have he : ¬ ("POST" = "") := by decide
  simp only [NewRequestWithContext, if_neg he, hv, if_true]

theorem setTarget_fresh (url : String) (t : Duration) :
    setTarget { method := "POST", url := url, header := [], body := none, ctxTimeout := t }
      = statsRequest url t := by
  have hk : CanonicalMIMEHeaderKey "x-sora-target" = "X-Sora-Target" := by decide
  simp [setTarget, statsRequest, Header.Set, hk]

/-- C3: one call of Collect sends no sample or exactly eleven, and none when request
construction fails, when the client's Do returns an error, or when decoding the response
body fails. -/
theorem Collect_all_or_nothing (P : Platform) (c : Collector) :
    ((Collect P c).samples.length = 0 ∨ (Collect P c).samples.length = 11) ∧
    (∀ err, NewRequestWithContext P c.timeout "POST" c.soraURL none = Except.error err →
      (Collect P c).samples.length = 0) ∧
    (∀ req0 cli err,
      NewRequestWithContext P c.timeout "POST" c.soraURL none = Except.ok req0 →
      c.httpClient = some cli → cli (setTarget req0) = Except.error err →
      (Collect P c).samples.length = 0) ∧
    (∀ req0 cli resp err,
      NewRequestWithContext P c.timeout "POST" c.soraURL none = Except.ok req0 →
      c.httpClient = some cli → cli (setTarget req0) = Except.ok resp →
      Decode resp.body = Except.error err →
      (Collect P c).samples.length = 0) := by
  refine ⟨?_, ?_, ?_, ?_⟩
  · rcases Collect_samples_cases P c with h | ⟨report, h⟩
    · left; rw [h]; rfl
    · right; rw [h]; rfl
  · intro err hreq
    simp [Collect, hreq, logAndReturn_samples]
  · intro req0 cli err hreq hcli hdo
    simp [Collect, hreq, hcli, hdo, logAndReturn_samples]
  · intro req0 cli resp err hreq hcli hdo hdec
    simp [Collect, hreq, hcli, hdo, hdec, logAndReturn_samples]

/-- Instances of C3: a rejected URL, an unreachable upstream and an empty body each give
no sample. -/
theorem Collect_all_or_nothing_witness :
    (Collect rejectingPlatform (New rejectingPlatform [])).samples.length = 0 ∧
    (Collect unreachablePlatform (New unreachablePlatform [])).samples.length = 0 ∧
    (Collect (fixedPlatform (Body.invalid "EOF"))
      (New (fixedPlatform (Body.invalid "EOF")) [])).samples.length = 0 :=
  ⟨(Collect_all_or_nothing rejectingPlatform (New rejectingPlatform [])).2.1 _ rfl,
   (Collect_all_or_nothing unreachablePlatform (New unreachablePlatform [])).2.2.1
      _ _ _ rfl rfl rfl,
   (Collect_all_or_nothing (fixedPlatform (Body.invalid "EOF"))
      (New (fixedPlatform (Body.invalid "EOF")) [])).2.2.2 _ _ _ _ rfl rfl rfl rfl⟩

/-- C4: for a report that decodes, a Collector built by New sends exactly eleven samples
in descriptor declaration order: the nine counters and then the two gauges under their
fully-qualified names, each with the conversion of its source field (the last one of
average_setup_time_msec divided by 1000 in int64), and the eleven names are pairwise
distinct. -/
theorem Collect_emits_table (P : Platform) (opts : List CollectorOption) (req0 : Request)
    (cli : HTTPClient) (resp : Response) (report : statsReport)
    (hreq : NewRequestWithContext P (New P opts).timeout "POST" (New P opts).soraURL none
      = Except.ok req0)
    (hcli : (New P opts).httpClient = some cli)
    (hdo : cli (setTarget req0) = Except.ok resp)
    (hdec : Decode resp.body = Except.ok report) :
    (Collect P (New P opts)).samples.map (fun m => (m.desc.fqName, m.valType, m.value)) =
      [("sora_exporter_connections_created_total", ValueType.CounterValue,
          float64 report.TotalConnectionCreated),
       ("sora_exporter_connections_updated_total", ValueType.CounterValue,
          float64 report.TotalConnectionUpdated),
       ("sora_exporter_connections_destroyed_total", ValueType.CounterValue,
          float64 report.TotalConnectionDestroyed),
       ("sora_exporter_successfull_connections_total", ValueType.CounterValue,
          float64 report.TotalSuccessfulConnections),
       ("sora_exporter_ongoing_connections_total", ValueType.CounterValue,
          float64 report.TotalOngoingConnections),
       ("sora_exporter_failed_connections_total", ValueType.CounterValue,
          float64 report.TotalFailedConnections),
       ("sora_exporter_duration_seconds_total", ValueType.CounterValue,
          float64 report.TotalDurationSec),
       ("sora_exporter_turn_udp_connections_total", ValueType.CounterValue,
          float64 report.TotalTurnUdpConnections),
       ("sora_exporter_turn_tcp_connections_total", ValueType.CounterValue,
          float64 report.TotalTurnTcpConnections),
       ("sora_exporter_average_duration_seconds", ValueType.GaugeValue,
          float64 report.AverageDurationSec),
       ("sora_exporter_average_setup_time_seconds", ValueType.GaugeValue,
          float64 (Int.tdiv report.AverageSetupTimeMsec 1000))] ∧
    (Collect P (New P opts)).samples.map Metric.desc =
      [(New P opts).totalConnectionCreated, (New P opts).totalConnectionUpdated,
       (New P opts).totalConnectionDestroyed, (New P opts).totalSuccessfulConnections,
       (New P opts).totalOngoingConnections, (New P opts).totalFailedConnections,
       (New P opts).totalDurationSec, (New P opts).totalTurnUdpConnections,
       (New P opts).totalTurnTcpConnections, (New P opts).averageDurationSec,
       (New P opts).averageSetupTimeSec] ∧
    ((Collect P (New P opts)).samples.map (fun m => m.desc.fqName)).Nodup := by
  rw [Collect_of_success P _ req0 cli resp report hreq hcli hdo hdec]
  refine ⟨?_, rfl, ?_⟩
  · have hn : ∀ name help : String, (newDesc name help).fqName
        = BuildFQName "sora" "exporter" name := fun _ _ => rfl
    simp only [emit, New, newCounter, newGauge, MustNewConstMetric, List.map, hn,
      List.cons.injEq, Prod.mk.injEq, and_true, true_and]
    decide
  · have h : (emit (New P opts) report).map (fun m => m.desc.fqName)
        = ((emit (New P opts) report).map Metric.desc).map Desc.fqName := by
      rw [List.map_map]; rfl
    show ((emit (New P opts) report).map (fun m => m.desc.fqName)).Nodup
    rw [h, New_emit_descs]
    decide

/-- An instance of C4: the cycle against an upstream answering the example report, with
the eleven values as numerals. -/
theorem Collect_emits_table_witness :
    Decode exampleReportBody =
      Except.ok { statsReport.zero with
        TotalConnectionCreated := 5, AverageSetupTimeMsec := 2500, AverageDurationSec := 7 } ∧
    (Collect (fixedPlatform exampleReportBody)
        (New (fixedPlatform exampleReportBody) [])).samples.map
          (fun m => (m.desc.fqName, m.valType, m.value)) =
      [("sora_exporter_connections_created_total", ValueType.CounterValue, (5 : ℚ)),
       ("sora_exporter_connections_updated_total", ValueType.CounterValue, (0 : ℚ)),
       ("sora_exporter_connections_destroyed_total", ValueType.CounterValue, (0 : ℚ)),
       ("sora_exporter_successfull_connections_total", ValueType.CounterValue, (0 : ℚ)),
       ("sora_exporter_ongoing_connections_total", ValueType.CounterValue, (0 : ℚ)),
       ("sora_exporter_failed_connections_total", ValueType.CounterValue, (0 : ℚ)),
       ("sora_exporter_duration_seconds_total", ValueType.CounterValue, (0 : ℚ)),
       ("sora_exporter_turn_udp_connections_total", ValueType.CounterValue, (0 : ℚ)),
       ("sora_exporter_turn_tcp_connections_total", ValueType.CounterValue, (0 : ℚ)),
       ("sora_exporter_average_duration_seconds", ValueType.GaugeValue, (7 : ℚ)),
       ("sora_exporter_average_setup_time_seconds", ValueType.GaugeValue, (2 : ℚ))] := by
  have h := (Collect_emits_table (fixedPlatform exampleReportBody) [] _ _ _ _ rfl rfl rfl
    exampleReport_decodes).1
  have h5 : float64 5 = 5 := by rw [float64_of_le _ (by decide)]; norm_num
  have h0 : float64 0 = 0 := by rw [float64_of_le _ (by decide)]; norm_num
  have h7 : float64 7 = 7 := by rw [float64_of_le _ (by decide)]; norm_num
  refine ⟨exampleReport_decodes, ?_⟩
  rw [h]
  simp only [statsReport.zero, h5, h0, h7, float64_tdiv_2500]

/-- C8: for a report that decodes, each of the nine counter samples and the
average_duration_seconds gauge carries the float64 conversion of its source field,
whatever its sign or history, and the conversion is exact for every integer of
magnitude at most 2^53, so that the value then is the source integer. -/
theorem counters_pass_through (P : Platform) (c : Collector) (req0 : Request)
    (cli : HTTPClient) (resp : Response) (report : statsReport)
    (hreq : NewRequestWithContext P c.timeout "POST" c.soraURL none = Except.ok req0)
    (hcli : c.httpClient = some cli)
    (hdo : cli (setTarget req0) = Except.ok resp)
    (hdec : Decode resp.body = Except.ok report) :
    ((Collect P c).samples.take 10).map Metric.value
      = (Field.all.take 10).map (fun f => float64 (report.get f)) ∧
    (∀ n : Int, n.natAbs ≤ 2 ^ 53 → float64 n = (n : ℚ)) ∧
    ((∀ f ∈ Field.all.take 10, (report.get f).natAbs ≤ 2 ^ 53) →
      ((Collect P c).samples.take 10).map Metric.value
        = (Field.all.take 10).map (fun f => ((report.get f : Int) : ℚ))) := by
  rw [Collect_of_success P c req0 cli resp report hreq hcli hdo hdec]
  have h1 : ((emit c report).take 10).map Metric.value
      = (Field.all.take 10).map (fun f => float64 (report.get f)) := rfl
  refine ⟨h1, float64_of_le, ?_⟩
  intro hb
  show ((emit c report).take 10).map Metric.value = _
  rw [h1]
  exact List.map_congr_left (fun f hf => float64_of_le _ (hb f hf))

/-- The report of `negativeReportBody`. -/
theorem negativeReport_decodes :
    Decode negativeReportBody =
      Except.ok { statsReport.zero with
        TotalConnectionCreated := -3, TotalOngoingConnections := 9007199254740992 } := by
  rfl

/-- An instance of C8: a negative counter and one of magnitude 2^53 pass through. -/
theorem counters_pass_through_witness :
    ((Collect (fixedPlatform negativeReportBody)
        (New (fixedPlatform negativeReportBody) [])).samples.take 10).map Metric.value
      = [-3, 0, 0, 0, 9007199254740992, 0, 0, 0, 0, 0] := by
  have h := (counters_pass_through (fixedPlatform negativeReportBody)
    (New (fixedPlatform negativeReportBody) []) _ _ _ _ rfl rfl rfl
    negativeReport_decodes).2.2 (by decide)
  rw [h]
  simp [Field.all, statsReport.get, statsReport.zero]

/-- C9 (counterexample): the configuration New(WithHTTPClient(nil)) holds a nil client
and a URL that request construction accepts, and Collect hands no request to any client:
the cycle ends in the panic of the call on the nil client. -/
theorem nil_client_is_never_called :
    (New (fixedPlatform exampleReportBody) [WithHTTPClient none]).httpClient.isNone = true ∧
    (fixedPlatform exampleReportBody).urlParseError
      (New (fixedPlatform exampleReportBody) [WithHTTPClient none]).soraURL = none ∧
    (NewRequestWithContext (fixedPlatform exampleReportBody)
      (New (fixedPlatform exampleReportBody) [WithHTTPClient none]).timeout "POST"
      (New (fixedPlatform exampleReportBody) [WithHTTPClient none]).soraURL none).toBool
        = true ∧
    (Collect (fixedPlatform exampleReportBody)
      (New (fixedPlatform exampleReportBody) [WithHTTPClient none])).requests = [] ∧
    (Collect (fixedPlatform exampleReportBody)
      (New (fixedPlatform exampleReportBody) [WithHTTPClient none])).panicked = true ∧
    (Collect (fixedPlatform exampleReportBody)
      (New (fixedPlatform exampleReportBody) [WithHTTPClient none])).requests.length ≠ 1 := by
  refine ⟨rfl, rfl, rfl, rfl, rfl, ?_⟩
  decide

/-- C9 (amended): for a configuration that holds a client (not nil): when request
construction accepts the configured URL the client's Do is called exactly once in the
cycle, with a POST request to the configured URL carrying the header
x-sora-target: Sora_20171010.GetStatsReport (and no other), a nil body and the
configured timeout; when request construction fails the client is not called. -/
theorem Collect_request (P : Platform) (c : Collector) (cli : HTTPClient)
    (hcli : c.httpClient = some cli) :
    (P.urlParseError c.soraURL = none →
      (Collect P c).requests = [statsRequest c.soraURL c.timeout] ∧
      (statsRequest c.soraURL c.timeout).method = "POST" ∧
      (statsRequest c.soraURL c.timeout).url = c.soraURL ∧
      Header.Get (statsRequest c.soraURL c.timeout).header "x-sora-target"
        = "Sora_20171010.GetStatsReport" ∧
      (statsRequest c.soraURL c.timeout).body = none) ∧
    (P.urlParseError c.soraURL ≠ none → (Collect P c).requests = []) := by
  constructor
  · intro hurl
    have hget : Header.Get [("X-Sora-Target", ["Sora_20171010.GetStatsReport"])]
        "x-sora-target" = "Sora_20171010.GetStatsReport" := by decide
    refine ⟨?_, rfl, rfl, hget, rfl⟩
    have hreq := NewRequestWithContext_POST P c.timeout c.soraURL
    rw [hurl] at hreq
    simp only [Collect, hreq, hcli, setTarget_fresh]
    split
    · exact logAndReturn_requests _ _ _ _
    · split
      · exact logAndReturn_requests _ _ _ _
      · rfl
  · intro hurl
    have hreq := NewRequestWithContext_POST P c.timeout c.soraURL
    cases hu : P.urlParseError c.soraURL with
    | none => exact absurd hu hurl
    | some err =>
      rw [hu] at hreq
      simp only [Collect, hreq]
      exact logAndReturn_requests _ _ _ _

/-- Instances of the amended C9: the default configuration against an answering
upstream, and against a platform that rejects the URL. -/
theorem Collect_request_witness :
    (Collect (fixedPlatform exampleReportBody)
        (New (fixedPlatform exampleReportBody) [])).requests
      = [{ method := "POST", url := "http://127.0.0.1:3000/",
           header := [("X-Sora-Target", ["Sora_20171010.GetStatsReport"])],
           body := none, ctxTimeout := 1000000000 }] ∧
    (Collect rejectingPlatform (New rejectingPlatform [])).requests = [] :=
  ⟨((Collect_request (fixedPlatform exampleReportBody)
      (New (fixedPlatform exampleReportBody) []) _ rfl).1 rfl).1,
   (Collect_request rejectingPlatform (New rejectingPlatform []) _ rfl).2 (by decide)⟩

theorem New_toconfig (P : Platform) (opts : List CollectorOption) :
    (New P opts).toconfig = opts.foldl (fun cfg opt => opt cfg) (defaultConfig P) := by
  show (defaults P ++ opts).foldl (fun cfg opt => opt cfg) config.new = _
  rw [List.foldl_append]
  rfl

theorem foldl_calls_fields (calls : List OptionCall) (cfg : config) :
    ((calls.map OptionCall.toOption).foldl (fun cfg opt => opt cfg) cfg).httpClient
      = (lastHTTPClient calls).getD cfg.httpClient ∧
    ((calls.map OptionCall.toOption).foldl (fun cfg opt => opt cfg) cfg).logger
      = (lastLogger calls).getD cfg.logger ∧
    ((calls.map OptionCall.toOption).foldl (fun cfg opt => opt cfg) cfg).timeout
      = (lastTimeout calls).getD cfg.timeout ∧
    ((calls.map OptionCall.toOption).foldl (fun cfg opt => opt cfg) cfg).soraURL
      = (lastSoraURL calls).getD cfg.soraURL := by
  induction calls using List.reverseRecOn with
  | nil => exact ⟨rfl, rfl, rfl, rfl⟩
  | append_singleton l o ih =>
    obtain ⟨h1, h2, h3, h4⟩ := ih
    simp only [List.map_append, List.map_cons, List.map_nil, List.foldl_append,
      List.foldl_cons, List.foldl_nil, lastHTTPClient, lastLogger, lastTimeout, lastSoraURL,
      List.reverse_append, List.reverse_cons, List.reverse_nil, List.nil_append,
      List.singleton_append, List.findSome?_cons] at *
    cases o <;>
      simp [OptionCall.toOption, WithHTTPClient, WithLogger, WithTimeout, WithSoraURL,
        h1, h2, h3, h4]

/-- C10: the configuration New builds is the options applied left to right over the
built-in defaults (default client, JSON logger on stderr, timeout 1 s, URL
http://127.0.0.1:3000/); for options written with the four constructors each field
holds the value of the last option of the list that sets it, or its default when none
does; so New() has timeout 1 s and the loopback URL, and
New(WithTimeout(a), WithTimeout(b)) has timeout b. -/
theorem New_applies_options_in_order (P : Platform) (opts : List CollectorOption)
    (calls : List OptionCall) (a b : Duration) :
    (New P opts).toconfig = opts.foldl (fun cfg opt => opt cfg) (defaultConfig P) ∧
    (New P (calls.map OptionCall.toOption)).httpClient
      = (lastHTTPClient calls).getD (some P.DefaultClient) ∧
    (New P (calls.map OptionCall.toOption)).logger
      = (lastLogger calls).getD (some Logger.jsonStderr) ∧
    (New P (calls.map OptionCall.toOption)).timeout
      = (lastTimeout calls).getD (1 * Second) ∧
    (New P (calls.map OptionCall.toOption)).soraURL
      = (lastSoraURL calls).getD "http://127.0.0.1:3000/" ∧
    (New P []).timeout = 1 * Second ∧
    (New P []).soraURL = "http://127.0.0.1:3000/" ∧
    (New P [WithTimeout a, WithTimeout b]).timeout = b := by
  obtain ⟨h1, h2, h3, h4⟩ := foldl_calls_fields calls (defaultConfig P)
  have hc := New_toconfig P (calls.map OptionCall.toOption)
  refine ⟨New_toconfig P opts, ?_, ?_, ?_, ?_, rfl, rfl, rfl⟩
  · show (New P (calls.map OptionCall.toOption)).toconfig.httpClient = _
    rw [hc, h1]
    rfl
  · show (New P (calls.map OptionCall.toOption)).toconfig.logger = _
    rw [hc, h2]
    rfl
  · show (New P (calls.map OptionCall.toOption)).toconfig.timeout = _
    rw [hc, h3]
    rfl
  · show (New P (calls.map OptionCall.toOption)).toconfig.soraURL = _
    rw [hc, h4]
    rfl

/-! ### Decoding -/

theorem statsReport_get_set (r : statsReport) (f g : Field) (v : Int) :
    (r.set f v).get g = if g = f then v else r.get g := by
  cases f <;> cases g <;> rfl

theorem saveError_ne_none (d : decodeState) (err : DecodeError) :
    (d.saveError err).savedError ≠ none := by
  unfold decodeState.saveError
  cases h : d.savedError with
  | none => simp
  | some e => simp [h]

theorem saveError_report (d : decodeState) (err : DecodeError) :
    (d.saveError err).report = d.report := by
  unfold decodeState.saveError
  cases d.savedError <;> rfl

theorem storeInt64_savedError (d : decodeState) (f : Field) (v : JSON) :
    (storeInt64 d f v).savedError = none ↔ d.savedError = none ∧ storable v = true := by
  cases v with
  | null => simp [storeInt64, storable]
  | int n =>
    by_cases h : inInt64 n
    · simp [storeInt64, storable, h]
    · simp [storeInt64, storable, h, saveError_ne_none]
  | bool b => simp [storeInt64, storable, saveError_ne_none]
  | nonint l => simp [storeInt64, storable, saveError_ne_none]
  | str s => simp [storeInt64, storable, saveError_ne_none]
  | arr xs => simp [storeInt64, storable, saveError_ne_none]
  | obj ms => simp [storeInt64, storable, saveError_ne_none]

theorem decodeMember_savedError (d : decodeState) (kv : String × JSON) :
    (decodeMember d kv).savedError = none ↔
      d.savedError = none ∧ ((findField kv.1).isNone || storable kv.2) = true := by
  unfold decodeMember
  cases h : findField kv.1 with
  | none => simp
  | some f => simp [storeInt64_savedError]

theorem decodeObject_savedError (ms : List (String × JSON)) (d : decodeState) :
    (decodeObject d ms).savedError = none ↔
      d.savedError = none ∧
        ms.all (fun kv => (findField kv.1).isNone || storable kv.2) = true := by
  induction ms generalizing d with
  | nil => simp [decodeObject]
  | cons kv ms ih =>
    have ih1 := ih (decodeMember d kv)
    unfold decodeObject at ih1 ⊢
    rw [List.foldl_cons, ih1, decodeMember_savedError, List.all_cons, Bool.and_eq_true]
    tauto

theorem unmarshal_isOk (j : JSON) :
    (∃ r, unmarshal j = Except.ok r) ↔ reportShaped j = true := by
  cases j with
  | null => simp [unmarshal, reportShaped]
  | obj ms =>
    have h := decodeObject_savedError ms { report := statsReport.zero, savedError := none }
    simp only [unmarshal, reportShaped]
    cases hs : (decodeObject { report := statsReport.zero, savedError := none } ms).savedError with
    | none =>
      rw [hs] at h
      simp [h.mp rfl]
    | some e =>
      rw [hs] at h
      have : ¬ (ms.all (fun kv => (findField kv.1).isNone || storable kv.2) = true) := by
        intro hall
        have := h.mpr ⟨rfl, hall⟩
        simp at this
      simp [this]
  | bool b => simp [unmarshal, reportShaped]
  | int n => simp [unmarshal, reportShaped]
  | nonint l => simp [unmarshal, reportShaped]
  | str s => simp [unmarshal, reportShaped]
  | arr xs => simp [unmarshal, reportShaped]

theorem storeInt64_get (d : decodeState) (f g : Field) (v : JSON) :
    (storeInt64 d f v).report.get g =
      (if f = g then
        (match v with
         | .int n => if inInt64 n then some n else none
         | _ => none)
       else none).getD (d.report.get g) := by
  by_cases hfg : f = g
  · subst hfg
    cases v with
    | int n =>
      by_cases h : inInt64 n
      · simp [storeInt64, h, statsReport_get_set]
      · simp [storeInt64, h, saveError_report]
    | null => simp [storeInt64]
    | bool b => simp [storeInt64, saveError_report]
    | nonint l => simp [storeInt64, saveError_report]
    | str s => simp [storeInt64, saveError_report]
    | arr xs => simp [storeInt64, saveError_report]
    | obj ms => simp [storeInt64, saveError_report]
  · have hgf : ¬ g = f := fun h => hfg h.symm
    cases v with
    | int n =>
      by_cases h : inInt64 n
      · simp [storeInt64, h, statsReport_get_set, hfg, hgf]
      · simp [storeInt64, h, saveError_report, hfg]
    | null => simp [storeInt64, hfg]
    | bool b => simp [storeInt64, saveError_report, hfg]
    | nonint l => simp [storeInt64, saveError_report, hfg]
    | str s => simp [storeInt64, saveError_report, hfg]
    | arr xs => simp [storeInt64, saveError_report, hfg]
    | obj ms => simp [storeInt64, saveError_report, hfg]

theorem decodeMember_get (d : decodeState) (kv : String × JSON) (g : Field) :
    (decodeMember d kv).report.get g = (storedInto g kv).getD (d.report.get g) := by
  unfold decodeMember storedInto
  cases h : findField kv.1 with
  | none => simp
  | some f =>
    simp only [storeInt64_get, Option.some.injEq]

theorem decodeObject_get (ms : List (String × JSON)) (d : decodeState) (g : Field) :
    (decodeObject d ms).report.get g = (lastStored g ms).getD (d.report.get g) := by
  induction ms using List.reverseRecOn with
  | nil => rfl
  | append_singleton l kv ih =>
    unfold decodeObject at ih ⊢
    rw [List.foldl_append, List.foldl_cons, List.foldl_nil, decodeMember_get, ih]
    unfold lastStored
    rw [List.reverse_append, List.reverse_cons, List.reverse_nil, List.nil_append,
      List.singleton_append, List.findSome?_cons]
    cases storedInto g kv <;> rfl

theorem decodeMember_unselected (d : decodeState) (kv : String × JSON)
    (h : findField kv.1 = none) : decodeMember d kv = d := by
  unfold decodeMember
  rw [h]

theorem decodeObject_filter (ms : List (String × JSON)) (d : decodeState) :
    decodeObject d (ms.filter (fun kv => (findField kv.1).isSome)) = decodeObject d ms := by
  induction ms generalizing d with
  | nil => rfl
  | cons kv ms ih =>
    unfold decodeObject at ih ⊢
    cases h : findField kv.1 with
    | none =>
      rw [List.filter_cons_of_neg (by simp [h]), List.foldl_cons,
        decodeMember_unselected d kv h]
      exact ih d
    | some f =>
      rw [List.filter_cons_of_pos (by simp [h]), List.foldl_cons, List.foldl_cons]
      exact ih _

theorem EqualFold_self (f : Field) : EqualFold f.jsonName f.jsonName = true := by
  cases f <;> decide

theorem findField_jsonName (f : Field) : findField f.jsonName = some f := by
  cases f <;> decide

theorem mem_Field_all (f : Field) : f ∈ Field.all := by
  cases f <;> decide

theorem findField_sound (key : String) (f : Field) (h : findField key = some f) :
    EqualFold f.jsonName key = true := by
  unfold findField at h
  cases hx : Field.all.find? (fun f => f.jsonName = key) with
  | some f1 =>
    rw [hx] at h
    have hf : f1 = f := by simpa using h
    have hp := List.find?_some hx
    have hk : f1.jsonName = key := by simpa using hp
    rw [← hf, ← hk]
    exact EqualFold_self f1
  | none =>
    rw [hx] at h
    have hp := List.find?_some h
    simpa using hp

theorem findField_none_of_no_fold (key : String)
    (h : ∀ f : Field, EqualFold f.jsonName key = false) : findField key = none := by
  unfold findField
  have h1 : Field.all.find? (fun f => f.jsonName = key) = none := by
    rw [List.find?_eq_none]
    intro f _ hf
    have hk : f.jsonName = key := by simpa using hf
    have := h f
    rw [← hk, EqualFold_self] at this
    exact absurd this (by simp)
  rw [h1]
  rw [List.find?_eq_none]
  intro f _ hf
  rw [h f] at hf
  exact absurd hf (by simp)

theorem unmarshal_obj_get (ms : List (String × JSON)) (r : statsReport)
    (h : unmarshal (JSON.obj ms) = Except.ok r) (f : Field) :
    r.get f = (lastStored f ms).getD 0 := by
  simp only [unmarshal] at h
  cases hs : (decodeObject { report := statsReport.zero, savedError := none } ms).savedError with
  | some e => rw [hs] at h; simp at h
  | none =>
    rw [hs] at h
    have hr : (decodeObject { report := statsReport.zero, savedError := none } ms).report = r := by
      simpa using h
    rw [← hr, decodeObject_get]
    cases f <;> rfl

theorem lastStored_of_last (f : Field) (l1 l2 : List (String × JSON)) (key : String)
    (n : Int) (hkey : findField key = some f) (hn : inInt64 n)
    (hrest : ∀ kv ∈ l2, findField kv.1 ≠ some f) :
    lastStored f (l1 ++ (key, JSON.int n) :: l2) = some n := by
  unfold lastStored
  rw [List.reverse_append, List.reverse_cons, List.append_assoc, List.singleton_append,
    List.findSome?_append]
  have h2 : l2.reverse.findSome? (storedInto f) = none := by
    rw [List.findSome?_eq_none_iff]
    intro kv hkv
    have := hrest kv (List.mem_reverse.mp hkv)
    simp [storedInto, this]
  rw [h2, List.findSome?_cons]
  simp [storedInto, hkey, hn]

theorem lastStored_none_of_unselected (f : Field) (ms : List (String × JSON))
    (h : ∀ kv ∈ ms, findField kv.1 ≠ some f) : lastStored f ms = none := by
  unfold lastStored
  rw [List.findSome?_eq_none_iff]
  intro kv hkv
  have := h kv (List.mem_reverse.mp hkv)
  simp [storedInto, this]

/-- C5 (counterexample): a response whose body is the well-formed JSON value `[]`, with
request construction and the client call succeeding, gives no sample. -/
theorem array_body_emits_nothing :
    (Collect (fixedPlatform arrayBody) (New (fixedPlatform arrayBody) [])).samples.length = 0 ∧
    (Collect (fixedPlatform arrayBody) (New (fixedPlatform arrayBody) [])).requests.length = 1 ∧
    (Collect (fixedPlatform arrayBody) (New (fixedPlatform arrayBody) [])).samples.length ≠ 11 := by
  refine ⟨?_, ?_, ?_⟩ <;> decide

/-- C5 (amended): when request construction and the client call succeed and the body is
a well-formed JSON value, Collect sends exactly eleven samples if the value is
report-shaped (null, or an object in which every member whose key selects a report
field, exactly or under case folding, holds null or an integer literal within int64),
and none otherwise. -/
theorem Collect_on_json_body (P : Platform) (c : Collector) (req0 : Request)
    (cli : HTTPClient) (resp : Response) (j : JSON)
    (hreq : NewRequestWithContext P c.timeout "POST" c.soraURL none = Except.ok req0)
    (hcli : c.httpClient = some cli)
    (hdo : cli (setTarget req0) = Except.ok resp)
    (hbody : resp.body = Body.json j) :
    (Collect P c).samples.length = if reportShaped j = true then 11 else 0 := by
  have hD : Decode resp.body = unmarshal j := by rw [hbody]; rfl
  cases hu : unmarshal j with
  | ok r =>
    have hs : reportShaped j = true := (unmarshal_isOk j).mp ⟨r, hu⟩
    rw [Collect_of_success P c req0 cli resp r hreq hcli hdo (hD.trans hu), if_pos hs]
    rfl
  | error e =>
    have hs : ¬ reportShaped j = true := by
      intro hs
      obtain ⟨r, hr⟩ := (unmarshal_isOk j).mpr hs
      rw [hu] at hr
      exact absurd hr (by simp)
    rw [if_neg hs]
    simp [Collect, hreq, hcli, hdo, hD, hu, logAndReturn_samples]

/-- Instances of the amended C5: the example report gives eleven samples, a string in a
report field none. -/
theorem Collect_on_json_body_witness :
    (Collect (fixedPlatform exampleReportBody)
      (New (fixedPlatform exampleReportBody) [])).samples.length = 11 ∧
    (Collect (fixedPlatform mixedCaseStringBody)
      (New (fixedPlatform mixedCaseStringBody) [])).samples.length = 0 :=
  ⟨Collect_on_json_body (fixedPlatform exampleReportBody)
      (New (fixedPlatform exampleReportBody) []) _ _ _ _ rfl rfl rfl rfl,
   Collect_on_json_body (fixedPlatform mixedCaseStringBody)
      (New (fixedPlatform mixedCaseStringBody) []) _ _ _ _ rfl rfl rfl rfl⟩

/-- C6 (counterexample): a key outside the eleven wire names that differs from one only
in letter case changes the decoded report (the field is 2 with it and 1 without it),
and such a key holding a string makes decoding fail although no wire name is present. -/
theorem case_variant_key_has_effect :
    Decode mixedCaseBody
      = Except.ok { statsReport.zero with TotalConnectionCreated := 2 } ∧
    Decode singleKeyBody
      = Except.ok { statsReport.zero with TotalConnectionCreated := 1 } ∧
    (∀ f : Field, f.jsonName ≠ "Total_Connection_Created") ∧
    (∃ err, Decode mixedCaseStringBody = Except.error err) ∧
    (Collect (fixedPlatform mixedCaseStringBody)
      (New (fixedPlatform mixedCaseStringBody) [])).samples = [] := by
  refine ⟨rfl, rfl, ?_, ?_, ?_⟩
  · intro f; cases f <;> decide
  · exact ⟨_, rfl⟩
  · rfl

/-- C6 (amended): for a JSON object response in which every member whose key selects a
report field, exactly or under case folding, holds an integer literal within int64:
decoding succeeds; a field no member selects is zero; a field some member selects holds
the integer of the last such member; members whose key selects no field have no effect
and cause no error; and Collect sends the eleven samples of that report. -/
theorem decode_integer_object (P : Platform) (c : Collector) (req0 : Request)
    (cli : HTTPClient) (resp : Response) (ms : List (String × JSON))
    (hreq : NewRequestWithContext P c.timeout "POST" c.soraURL none = Except.ok req0)
    (hcli : c.httpClient = some cli)
    (hdo : cli (setTarget req0) = Except.ok resp)
    (hbody : resp.body = Body.json (JSON.obj ms))
    (hint : ∀ kv ∈ ms, ∀ f, findField kv.1 = some f → ∃ n, kv.2 = JSON.int n ∧ inInt64 n) :
    ∃ report : statsReport,
      Decode resp.body = Except.ok report ∧
      (∀ f, (∀ kv ∈ ms, findField kv.1 ≠ some f) → report.get f = 0) ∧
      (∀ f l1 l2 key n, ms = l1 ++ (key, JSON.int n) :: l2 → findField key = some f →
        (∀ kv ∈ l2, findField kv.1 ≠ some f) → report.get f = n) ∧
      Decode (Body.json (JSON.obj (ms.filter (fun kv => (findField kv.1).isSome))))
        = Except.ok report ∧
      (Collect P c).samples = emit c report ∧
      (Collect P c).samples.length = 11 := by
  have hshape : reportShaped (JSON.obj ms) = true := by
    simp only [reportShaped, List.all_eq_true]
    intro kv hkv
    cases hf : findField kv.1 with
    | none => rfl
    | some f =>
      obtain ⟨n, hv, hn⟩ := hint kv hkv f hf
      simp [hv, storable, hn]
  obtain ⟨report, hr⟩ := (unmarshal_isOk _).mpr hshape
  have hD : Decode resp.body = Except.ok report := by rw [hbody]; exact hr
  have hC := Collect_of_success P c req0 cli resp report hreq hcli hdo hD
  refine ⟨report, hD, ?_, ?_, ?_, ?_, ?_⟩
  · intro f hf
    rw [unmarshal_obj_get ms report hr f, lastStored_none_of_unselected f ms hf]
    rfl
  · intro f l1 l2 key n hms hkey hrest
    have hn : inInt64 n := by
      obtain ⟨n1, hv, hn1⟩ := hint (key, JSON.int n) (by rw [hms]; simp) f hkey
      have : n = n1 := by simpa using hv
      rw [this]; exact hn1
    rw [unmarshal_obj_get ms report hr f, hms, lastStored_of_last f l1 l2 key n hkey hn hrest]
    rfl
  · show unmarshal (JSON.obj (ms.filter (fun kv => (findField kv.1).isSome))) = _
    have hu : unmarshal (JSON.obj (ms.filter (fun kv => (findField kv.1).isSome)))
        = unmarshal (JSON.obj ms) := by
      simp only [unmarshal, decodeObject_filter]
    rw [hu]; exact hr
  · rw [hC]
  · rw [hC]; rfl

/-- An instance of the amended C6: a body with one field missing, one unknown key and
one key in upper case. -/
theorem decode_integer_object_witness :
    ∃ report : statsReport,
      Decode incompleteBody = Except.ok report ∧
      report.get Field.TotalConnectionDestroyed = 0 ∧
      report.get Field.TotalConnectionCreated = 5 ∧
      report.get Field.AverageDurationSec = 7 ∧
      (Collect (fixedPlatform incompleteBody) (New (fixedPlatform incompleteBody) [])).samples.length
        = 11 := by
  obtain ⟨report, hD, hzero, hlast, _, _, hlen⟩ :=
    decode_integer_object (fixedPlatform incompleteBody) (New (fixedPlatform incompleteBody) [])
      _ _ _ _ rfl rfl rfl rfl (by
        intro kv hkv f hf
        simp only [List.mem_cons, List.mem_singleton, List.not_mem_nil, or_false] at hkv
        rcases hkv with rfl | rfl | rfl | rfl
        · exact ⟨5, rfl, by decide⟩
        · exact ⟨6, rfl, by decide⟩
        · have hnone : findField "node_name" = none := by decide
          rw [show findField ("node_name", JSON.str "sora@127.0.0.1").1 = none from hnone] at hf
          exact absurd hf (by simp)
        · exact ⟨7, rfl, by decide⟩)
  refine ⟨report, hD, hzero _ (by decide), ?_, ?_, hlen⟩
  · exact hlast Field.TotalConnectionCreated [] _ "total_connection_created" 5 rfl
      (by decide) (by decide)
  · exact hlast Field.AverageDurationSec
      [("total_connection_created", JSON.int 5), ("total_connection_updated", JSON.int 6),
       ("node_name", JSON.str "sora@127.0.0.1")] [] "AVERAGE_DURATION_SEC" 7 rfl
      (by decide) (by decide)

/-- C7 (counterexample): an object whose only key is TOTAL_CONNECTION_CREATED, which
differs from the wire name total_connection_created in letter case only, decodes with
that field equal to 5. -/
theorem upper_case_key_is_decoded :
    Decode upperCaseBody = Except.ok { statsReport.zero with TotalConnectionCreated := 5 } ∧
    "TOTAL_CONNECTION_CREATED" ≠ Field.TotalConnectionCreated.jsonName ∧
    ({ statsReport.zero with TotalConnectionCreated := 5 } : statsReport).get
      Field.TotalConnectionCreated ≠ 0 := by
  refine ⟨rfl, ?_, ?_⟩ <;> decide

/-- C7 (amended): in a decoded JSON object response a field is non-zero only if the
object contains a key equal to the field's wire name under Unicode simple case folding
(equal, or differing in letter case only), that key selecting the field; the wire name
itself selects its field; and a member whose key equals no wire name under folding is
treated as unknown and changes nothing. -/
theorem nonzero_field_has_folded_key (ms : List (String × JSON)) (r : statsReport)
    (f : Field)
    (hdec : Decode (Body.json (JSON.obj ms)) = Except.ok r)
    (hne : r.get f ≠ 0) :
    (∃ kv ∈ ms, findField kv.1 = some f ∧ EqualFold f.jsonName kv.1 = true) ∧
    findField f.jsonName = some f ∧
    (∀ (key : String) (v : JSON) (d : decodeState),
      (∀ g : Field, EqualFold g.jsonName key = false) → decodeMember d (key, v) = d) := by
  refine ⟨?_, findField_jsonName f, ?_⟩
  · have hget := unmarshal_obj_get ms r hdec f
    cases hl : lastStored f ms with
    | none =>
      rw [hl] at hget
      exact absurd hget hne
    | some n =>
      unfold lastStored at hl
      obtain ⟨kv, hmem, hkv⟩ := List.exists_of_findSome?_eq_some hl
      have hsel : findField kv.1 = some f := by
        unfold storedInto at hkv
        by_contra hc
        rw [if_neg hc] at hkv
        exact absurd hkv (by simp)
      exact ⟨kv, List.mem_reverse.mp hmem, hsel, findField_sound kv.1 f hsel⟩
  · intro key v d hno
    exact decodeMember_unselected d (key, v) (findField_none_of_no_fold key hno)

/-- An instance of the amended C7: the field set by `upperCaseBody` comes from a key that
equals its wire name under folding. -/
theorem nonzero_field_has_folded_key_witness :
    ∃ kv ∈ [("TOTAL_CONNECTION_CREATED", JSON.int 5)],
      findField kv.1 = some Field.TotalConnectionCreated ∧
      EqualFold "total_connection_created" kv.1 = true :=
  (nonzero_field_has_folded_key [("TOTAL_CONNECTION_CREATED", JSON.int 5)]
    { statsReport.zero with TotalConnectionCreated := 5 } Field.TotalConnectionCreated
    rfl (by decide)).1

end collector
